import Mathlib

/-!
Shallow embedding of the vote-to-geography pipeline of galen-f/voteVisualizer.

DataFrames are modelled as lists of typed rows; pandas missing cells
(`NaN` after a left merge) are modelled as `Option.none`.  Each definition
below mirrors one Python function of the repository:

* `join_votes`, `join_votes_state`, `join_votes_district` — src/geo/join_geo.py
* `_parse_senate_members`                                 — src/senate.py
* `VOTE_NORMALIZE`, `_normalize_vote`, `_votes_by_state`  — src/maps/plot_senate.py
* `STATEFP`, `_build_geoid_df`, `unmappedCount`           — src/house.py
* `fips_map`, `state_abbr_to_fips`,
  `normalize_district_to_3digits`, `compute_geoid`        — house_map.py

The Python string primitives (`str.strip`, `str.lower`, `str.upper`,
slicing, `str.zfill`, `int()` on digit tokens) are modelled structurally
over the character list of the string, so that every definition evaluates
by kernel reduction.
-/

namespace VoteVisualizer

/-! ## Python string primitives -/

/-- Python `str.strip()`: remove leading and trailing whitespace. -/
def pyStrip (s : String) : String :=
  String.mk (((s.toList.dropWhile Char.isWhitespace).reverse.dropWhile
    Char.isWhitespace).reverse)

/-- Python `str.lower()` (ASCII letters, which is all the pipeline sees). -/
def pyLower (s : String) : String :=
  String.mk (s.toList.map Char.toLower)

/-- Python `str.upper()` (ASCII letters, which is all the pipeline sees). -/
def pyUpper (s : String) : String :=
  String.mk (s.toList.map Char.toUpper)

/-- Python slice `s[:n]`. -/
def pyTake (s : String) (n : Nat) : String :=
  String.mk (s.toList.take n)

/-- Python slice `s[n:]`. -/
def pyDrop (s : String) (n : Nat) : String :=
  String.mk (s.toList.drop n)

/-- Python `str.zfill(2)`: left-pad with zeros to width 2. -/
def zfill2 (s : String) : String :=
  if s.length = 0 then "00" else if s.length = 1 then "0" ++ s else s

/-- The numeric value of a list of decimal digit characters. -/
def digitsToNat (cs : List Char) : Nat :=
  cs.foldl (fun n c => 10 * n + (c.toNat - 48)) 0

/-- Python `int(s)` on the unsigned digit tokens the pipeline feeds it:
`none` models the `ValueError` branch.  (`int()` would also accept a
signed token such as `"-1"`; district tokens never carry a sign.) -/
def pyInt? (s : String) : Option Nat :=
  if s ≠ "" ∧ s.toList.all Char.isDigit then some (digitsToNat s.toList) else none

/-- Python `f"{n:03d}"` for a natural number: zero-pad to at least 3 digits. -/
def pad3 (n : Nat) : String :=
  if n < 10 then "00" ++ toString n
  else if n < 100 then "0" ++ toString n
  else toString n

/-! ## Row types -/

/-- One row of a canonical votes DataFrame: columns `geoid` and `vote`
(both always strings in the sources that build them). -/
structure VoteRow where
  geoid : String
  vote : String
deriving DecidableEq

/-- One row of the joined (Geo)DataFrame, keeping the geometry key column
(`STUSPS` for states, `GEOID` for districts) and the merged `vote` column,
which is `none` where the left merge produced a missing value. -/
structure JoinedRow where
  key : String
  vote : Option String
deriving DecidableEq

/-- A `members/member` XML entry as seen by `_parse_senate_members`:
`findtext` returns `none` when the child element is absent. -/
structure Member where
  state : Option String
  vote_cast : Option String
deriving DecidableEq

/-- One row produced by `_parse_house_roll` in src/house.py:
columns `bioguide`, `state`, `vote`. -/
structure HouseRawRow where
  bioguide : String
  state : String
  vote : String
deriving DecidableEq

/-! ## src/geo/join_geo.py -/

/-- The vote rows whose `geoid` equals the geometry key `k`
(the match set of one left-merge row). -/
def matchesOf (votes : List VoteRow) (k : String) : List VoteRow :=
  votes.filter (fun v => v.geoid = k)

/-- `pd.merge(left=shapes, right=votes, left_on=key, right_on="geoid", how="left")`
restricted to a single left row with key `k`: one output row per matching
right row (in right-table order), or a single row with a missing vote when
nothing matches. -/
def leftMergeKey (votes : List VoteRow) (k : String) : List JoinedRow :=
  match matchesOf votes k with
  | [] => [⟨k, none⟩]
  | m :: ms => (m :: ms).map (fun v => ⟨k, some v.vote⟩)

/-- `join_votes_state(votes, shapes)`: left merge of the state shapes
(column `STUSPS`, modelled as the list of state keys in table order)
with the votes table on `geoid`. -/
def join_votes_state (votes : List VoteRow) (shapes : List String) : List JoinedRow :=
  shapes.flatMap (fun k => leftMergeKey votes k)

/-- `votes.groupby("geoid", as_index=False)["vote"].first()`: keep, for every
`geoid`, its first row in original record order.  (pandas sorts the group
keys of the aggregated frame; since the aggregated keys are unique, the key
order of `df_agg` cannot affect the subsequent left merge, so we keep
first-appearance order.  The `vote` column is a string column here, so
`first()` never skips a null.)  `seen` accumulates the keys already kept. -/
def groupbyFirstAux (seen : List String) : List VoteRow → List VoteRow
  | [] => []
  | r :: rs =>
    if r.geoid ∈ seen then groupbyFirstAux seen rs
    else r :: groupbyFirstAux (r.geoid :: seen) rs

/-- The aggregated `df_agg` of `join_votes_district`. -/
def groupbyFirstVote (votes : List VoteRow) : List VoteRow :=
  groupbyFirstAux [] votes

/-- `join_votes_district(votes, shapes)`: aggregate duplicate `geoid`s by
`first`, then left merge the district shapes (column `GEOID`) with the
aggregate. -/
def join_votes_district (votes : List VoteRow) (shapes : List String) : List JoinedRow :=
  shapes.flatMap (fun k => leftMergeKey (groupbyFirstVote votes) k)

/-- `join_votes(chamber, votes, shapes)`: dispatch on the chamber string;
any other chamber raises `ValueError("Invalid chamber")`, modelled as
`Except.error`. -/
def join_votes (chamber : String) (votes : List VoteRow) (shapes : List String) :
    Except String (List JoinedRow) :=
  if chamber = "senate" then Except.ok (join_votes_state votes shapes)
  else if chamber = "house" then Except.ok (join_votes_district votes shapes)
  else Except.error "Invalid chamber"

/-! ## src/senate.py -/

/-- `_parse_senate_members(root)`: for each member entry take
`state = (findtext("state") or "").strip()` and
`vote = (findtext("vote_cast") or "").strip() or "Not Voting"`;
append a row only when `state` is non-empty. -/
def _parse_senate_members (members : List Member) : List VoteRow :=
  match members with
  | [] => []
  | m :: ms =>
    let state := pyStrip ((m.state).getD "")
    let vote :=
      let v := pyStrip ((m.vote_cast).getD "")
      if v = "" then "Not Voting" else v
    if state ≠ "" then ⟨state, vote⟩ :: _parse_senate_members ms
    else _parse_senate_members ms

/-! ## src/maps/plot_senate.py -/

/-- The `VOTE_NORMALIZE` dict of plot_senate.py, string keys in source order.
(The dict also carries a `None: "Not Voting"` entry, but `_normalize_vote`
returns on `None` before the lookup and stringifies every other value, so
that entry is unreachable and has no string-keyed counterpart here.) -/
def VOTE_NORMALIZE : List (String × String) :=
  [("Aye", "Yea"), ("Yes", "Yea"), ("Yea", "Yea"),
   ("No", "Nay"), ("Nay", "Nay"),
   ("Present", "Present"),
   ("Not Voting", "Not Voting"), ("NotVoting", "Not Voting"), ("NV", "Not Voting"),
   ("Excused", "Not Voting"), ("Absent", "Not Voting")]

/-- `_normalize_vote(v)`: `None` maps to `"Not Voting"`; otherwise the
stripped string is looked up in `VOTE_NORMALIZE` with ITSELF as the
default (`VOTE_NORMALIZE.get(v, v)`). -/
def _normalize_vote (v : Option String) : String :=
  match v with
  | none => "Not Voting"
  | some s =>
    let t := pyStrip s
    (VOTE_NORMALIZE.lookup t).getD t

/-- `joined[vote_col].map(_normalize_vote)` applied to one cell.
`Series.map` with the default `na_action=None` passes the missing marker
(the float NaN) to the function, where `str(float("nan"))` is the string
`"nan"`, which is not a key of `VOTE_NORMALIZE`. -/
def normalizeCell (v : Option String) : String :=
  match v with
  | none => _normalize_vote (some "nan")
  | some s => _normalize_vote (some s)

/-- Group keys of `groupby("STUSPS", sort=False)`: keys in order of first
appearance, each once.  `seen` accumulates the keys already emitted. -/
def uniqueKeysAux (seen : List String) : List String → List String
  | [] => []
  | k :: ks =>
    if k ∈ seen then uniqueKeysAux seen ks
    else k :: uniqueKeysAux (k :: seen) ks

/-- `_votes_by_state(joined, vote_col)` (the vote column is always the
merged `vote` column, so the column-name parameter is dropped): normalize
the vote column with `_normalize_vote`, group by `STUSPS` preserving
insertion order, then for each state pad/truncate its value list to exactly
two entries with `"Not Voting"`.  The `pd.notna` filter of the list
comprehension runs AFTER the normalization map, at which point every cell
is a plain `str` and `pd.notna` is true of every `str`, so the filter keeps
every element. -/
def _votes_by_state (joined : List JoinedRow) : List (String × List String) :=
  (uniqueKeysAux [] (joined.map (fun r => r.key))).map (fun st =>
    let vals := (joined.filter (fun r => r.key = st)).map (fun r => normalizeCell r.vote)
    (st, (vals ++ ["Not Voting", "Not Voting"]).take 2))

/-! ## src/house.py -/

/-- The `STATEFP` dict of src/house.py (56 state/territory postal codes to
2-digit FIPS), in source order. -/
def STATEFP : List (String × String) :=
  [("AL", "01"), ("AK", "02"), ("AZ", "04"), ("AR", "05"), ("CA", "06"),
   ("CO", "08"), ("CT", "09"), ("DE", "10"), ("DC", "11"),
   ("FL", "12"), ("GA", "13"), ("HI", "15"), ("ID", "16"), ("IL", "17"),
   ("IN", "18"), ("IA", "19"), ("KS", "20"), ("KY", "21"),
   ("LA", "22"), ("ME", "23"), ("MD", "24"), ("MA", "25"), ("MI", "26"),
   ("MN", "27"), ("MS", "28"), ("MO", "29"), ("MT", "30"),
   ("NE", "31"), ("NV", "32"), ("NH", "33"), ("NJ", "34"), ("NM", "35"),
   ("NY", "36"), ("NC", "37"), ("ND", "38"), ("OH", "39"),
   ("OK", "40"), ("OR", "41"), ("PA", "42"), ("RI", "44"), ("SC", "45"),
   ("SD", "46"), ("TN", "47"), ("TX", "48"), ("UT", "49"),
   ("VT", "50"), ("VA", "51"), ("WA", "53"), ("WV", "54"), ("WI", "55"),
   ("WY", "56"), ("PR", "72"), ("VI", "78"), ("GU", "66"),
   ("MP", "69"), ("AS", "60")]

/-- The loop body of `_build_geoid_df(votes_df, bioguide_to_sd)` on one raw
vote row: look its bioguide id up in the roster (`dict.get` with default
`""`); skip when there is no roster entry; split the statedistrict token as
`state_abbr, dist = sd[:2], sd[2:].zfill(2) if sd[2:] else ""`; resolve the
FIPS code (`STATEFP.get(state_abbr, "")`); emit
`{"geoid": statefp + dist, "vote": vote}` only when both `statefp` and
`dist` are non-empty. -/
def _build_geoid_row (roster : String → Option String) (r : HouseRawRow) :
    Option VoteRow :=
  let sd := (roster r.bioguide).getD ""
  if sd = "" then none
  else
    let state_abbr := pyTake sd 2
    let dist := if pyDrop sd 2 ≠ "" then zfill2 (pyDrop sd 2) else ""
    let statefp := (STATEFP.lookup state_abbr).getD ""
    if statefp ≠ "" ∧ dist ≠ "" then some ⟨statefp ++ dist, r.vote⟩ else none

/-- The output DataFrame of `_build_geoid_df`: the loop body
(`_build_geoid_row`) applied to every raw row, skips removed. -/
def _build_geoid_df (votes : List HouseRawRow) (roster : String → Option String) :
    List VoteRow :=
  votes.filterMap (_build_geoid_row roster)

/-- The guard of `_build_geoid_df` as a predicate on one raw row: true
exactly when the row survives into the output. -/
def resolves (roster : String → Option String) (r : HouseRawRow) : Bool :=
  let sd := (roster r.bioguide).getD ""
  if sd = "" then false
  else
    let dist := if pyDrop sd 2 ≠ "" then zfill2 (pyDrop sd 2) else ""
    let statefp := (STATEFP.lookup (pyTake sd 2)).getD ""
    decide (statefp ≠ "" ∧ dist ≠ "")

/-- The `unmapped` figure printed by `HouseSource.fetch`:
`len(votes_df) - len(result)`. -/
def unmappedCount (votes : List HouseRawRow) (roster : String → Option String) : Nat :=
  votes.length - (_build_geoid_df votes roster).length

/-! ## house_map.py -/

/-- The in-source postal-to-FIPS fallback table of
`state_abbr_to_fips` in house_map.py (the importable `us` library returns
the same codes for these entries), in source order. -/
def fips_map : List (String × String) :=
  [("AL", "01"), ("AK", "02"), ("AZ", "04"), ("AR", "05"), ("CA", "06"),
   ("CO", "08"), ("CT", "09"), ("DE", "10"), ("DC", "11"),
   ("FL", "12"), ("GA", "13"), ("HI", "15"), ("ID", "16"), ("IL", "17"),
   ("IN", "18"), ("IA", "19"), ("KS", "20"), ("KY", "21"),
   ("LA", "22"), ("ME", "23"), ("MD", "24"), ("MA", "25"), ("MI", "26"),
   ("MN", "27"), ("MS", "28"), ("MO", "29"), ("MT", "30"),
   ("NE", "31"), ("NV", "32"), ("NH", "33"), ("NJ", "34"), ("NM", "35"),
   ("NY", "36"), ("NC", "37"), ("ND", "38"), ("OH", "39"),
   ("OK", "40"), ("OR", "41"), ("PA", "42"), ("RI", "44"), ("SC", "45"),
   ("SD", "46"), ("TN", "47"), ("TX", "48"), ("UT", "49"),
   ("VT", "50"), ("VA", "51"), ("WA", "53"), ("WV", "54"), ("WI", "55"),
   ("WY", "56"), ("PR", "72"), ("GU", "66"), ("VI", "78"), ("AS", "60"),
   ("MP", "69")]

/-- `state_abbr_to_fips(state_abbr)`: `None` for a falsy (empty) input,
otherwise the upper-cased abbreviation looked up in the FIPS table. -/
def state_abbr_to_fips (s : String) : Option String :=
  if s = "" then none else fips_map.lookup (pyUpper s)

/-- `normalize_district_to_3digits(district)`: `None` gives `"000"`;
at-large tokens (lower-cased member of {"al","at-large","at large","0","00"})
give `"000"`; a token `int()` accepts is zero-padded to 3 digits; otherwise
the digits are extracted and padded, with `"000"` when none remain. -/
def normalize_district_to_3digits (district : Option String) : String :=
  match district with
  | none => "000"
  | some d =>
    let s := pyStrip d
    if pyLower s = "al" ∨ pyLower s = "at-large" ∨ pyLower s = "at large" ∨
        pyLower s = "0" ∨ pyLower s = "00" then "000"
    else
      match pyInt? s with
      | some n => pad3 n
      | none =>
        let digits := s.toList.filter Char.isDigit
        if digits = [] then "000" else pad3 (digitsToNat digits)

/-- `compute_geoid(state_abbr, district)`: `None` when the state has no
FIPS code, else the 2-digit FIPS concatenated with the 3-digit district. -/
def compute_geoid (state_abbr : String) (district : Option String) : Option String :=
  match state_abbr_to_fips state_abbr with
  | none => none
  | some fips => some (fips ++ normalize_district_to_3digits district)

/-! ## Helper lemmas about the join engine -/

theorem key_of_mem_leftMergeKey {votes : List VoteRow} {k : String} {r : JoinedRow}
    (h : r ∈ leftMergeKey votes k) : r.key = k := by
  unfold leftMergeKey at h
  cases hm : matchesOf votes k with
  | nil => rw [hm] at h; simp at h; rw [h]
  | cons m ms =>
    rw [hm] at h
    simp only [List.mem_map] at h
    obtain ⟨v, _, rfl⟩ := h
    rfl

theorem length_leftMergeKey (votes : List VoteRow) (k : String) :
    (leftMergeKey votes k).length = max (matchesOf votes k).length 1 := by
  unfold leftMergeKey
  cases matchesOf votes k with
  | nil => rfl
  | cons m ms => simp [Nat.max_eq_left (Nat.succ_le_succ (Nat.zero_le _))]

theorem length_join_votes_state (votes : List VoteRow) (shapes : List String) :
    (join_votes_state votes shapes).length =
      (shapes.map (fun k => max (matchesOf votes k).length 1)).sum := by
  induction shapes with
  | nil => rfl
  | cons k ks ih =>
    simp only [join_votes_state, List.flatMap_cons, List.length_append, List.map_cons,
      List.sum_cons] at *
    rw [ih, length_leftMergeKey]

theorem key_of_mem_join_votes_state {votes : List VoteRow} {shapes : List String}
    {r : JoinedRow} (h : r ∈ join_votes_state votes shapes) : r.key ∈ shapes := by
  unfold join_votes_state at h
  obtain ⟨k, hk, hr⟩ := List.mem_flatMap.mp h
  rw [key_of_mem_leftMergeKey hr]
  exact hk

theorem matchesOf_groupbyFirstAux (l : List VoteRow) :
    ∀ (seen : List String) (k : String),
      matchesOf (groupbyFirstAux seen l) k =
        if k ∈ seen then [] else (l.find? (fun v => v.geoid = k)).toList := by
  induction l with
  | nil =>
    intro seen k
    by_cases h : k ∈ seen <;> simp [groupbyFirstAux, matchesOf, h]
  | cons r rs ih =>
    intro seen k
    by_cases hm : r.geoid ∈ seen
    · rw [show groupbyFirstAux seen (r :: rs) = groupbyFirstAux seen rs by
        simp [groupbyFirstAux, hm]]
      rw [ih seen k]
      by_cases hk : k ∈ seen
      · simp [hk]
      · have hne : ¬ (r.geoid = k) := fun h => hk (h ▸ hm)
        rw [if_neg hk, if_neg hk, List.find?_cons_of_neg _ (by simpa using hne)]
    · rw [show groupbyFirstAux seen (r :: rs) = r :: groupbyFirstAux (r.geoid :: seen) rs by
        simp [groupbyFirstAux, hm]]
      by_cases hrk : r.geoid = k
      · have hk : ¬ k ∈ seen := hrk ▸ hm
        rw [if_neg hk]
        have hfirst : matchesOf (r :: groupbyFirstAux (r.geoid :: seen) rs) k =
            r :: matchesOf (groupbyFirstAux (r.geoid :: seen) rs) k := by
          simp [matchesOf, List.filter_cons, hrk]
        rw [hfirst, ih (r.geoid :: seen) k,
          if_pos (by simp [hrk]), List.find?_cons_of_pos _ (by simpa using hrk)]
        rfl
      · have hstep : matchesOf (r :: groupbyFirstAux (r.geoid :: seen) rs) k =
            matchesOf (groupbyFirstAux (r.geoid :: seen) rs) k := by
          simp [matchesOf, List.filter_cons, hrk]
        rw [hstep, ih (r.geoid :: seen) k,
          List.find?_cons_of_neg _ (by simpa using hrk)]
        by_cases hk : k ∈ seen
        · rw [if_pos (by simp [hk]), if_pos hk]
        · rw [if_neg (show ¬ k ∈ r.geoid :: seen by
            intro h
            rcases List.mem_cons.mp h with h | h
            · exact hrk h.symm
            · exact hk h), if_neg hk]

theorem leftMergeKey_groupbyFirstVote (votes : List VoteRow) (k : String) :
    leftMergeKey (groupbyFirstVote votes) k =
      [⟨k, (votes.find? (fun v => v.geoid = k)).map (fun v => v.vote)⟩] := by
  unfold leftMergeKey groupbyFirstVote
  rw [matchesOf_groupbyFirstAux votes [] k, if_neg (List.not_mem_nil k)]
  cases votes.find? (fun v => v.geoid = k) <;> rfl

theorem join_votes_district_eq (votes : List VoteRow) (shapes : List String) :
    join_votes_district votes shapes =
      shapes.map (fun k =>
        ⟨k, (votes.find? (fun v => v.geoid = k)).map (fun v => v.vote)⟩) := by
  unfold join_votes_district
  induction shapes with
  | nil => rfl
  | cons k ks ih =>
    rw [List.flatMap_cons, ih, leftMergeKey_groupbyFirstVote, List.map_cons]
    rfl

/-! ## Claim theorems -/

/-- Claim C1, counterexample: on the Senate path the claimed identity
`len(join_votes(chamber, votes, shapes)) == len(shapes)` fails for the
ordinary two-senators-per-state input — joining votes
[("CA","Yea"), ("CA","Nay")] against the single geometry row "CA" yields a
table of TWO rows, not one. -/
theorem C1_counterexample :
    join_votes "senate" [⟨"CA", "Yea"⟩, ⟨"CA", "Nay"⟩] ["CA"] =
      Except.ok [⟨"CA", some "Yea"⟩, ⟨"CA", some "Nay"⟩] ∧
    ¬ ([(⟨"CA", some "Yea"⟩ : JoinedRow), ⟨"CA", some "Nay"⟩].length =
        (["CA"] : List String).length) :=
  ⟨rfl, by decide⟩

/-- Claim C1, amended: the House join is total on the geometry side — one
output row per geometry row, keys in geometry order — but the Senate join
emits one row per matching vote record (or a single null row when none
match), so its length is the sum over geometry rows of max(1, #matches),
which equals `len(shapes)` only when every geometry key matches at most one
vote record. -/
theorem C1_amended (votes : List VoteRow) (shapes : List String) :
    (join_votes_district votes shapes).length = shapes.length ∧
    (join_votes_district votes shapes).map (fun r => r.key) = shapes ∧
    (join_votes_state votes shapes).length =
      (shapes.map (fun k => max (matchesOf votes k).length 1)).sum := by
  refine ⟨?_, ?_, length_join_votes_state votes shapes⟩
  · rw [join_votes_district_eq, List.length_map]
  · rw [join_votes_district_eq, List.map_map]
    exact List.map_id'' (fun _ => rfl) shapes

/-- Claim C2: in the House join, every joined row's vote is the
FIRST-encountered vote (in original record order) among the records whose
`geoid` equals that row's geometry key; later duplicates are discarded. -/
theorem C2_house_first_wins (votes : List VoteRow) (shapes : List String)
    (r : JoinedRow) (hr : r ∈ join_votes_district votes shapes) :
    r.vote = (votes.find? (fun v => v.geoid = r.key)).map (fun v => v.vote) := by
  rw [join_votes_district_eq] at hr
  obtain ⟨k, _, rfl⟩ := List.mem_map.mp hr
  rfl

/-- Witness for C2 at the claim's concrete input: joining the duplicate
records [("06012","Yea"), ("06012","Nay"), ("06012","Present")] gives
"06012" the vote "Yea", the first match of the record list. -/
theorem C2_witness :
    ((⟨"06012", some "Yea"⟩ : JoinedRow) ∈
      join_votes_district
        [⟨"06012", "Yea"⟩, ⟨"06012", "Nay"⟩, ⟨"06012", "Present"⟩] ["06012"]) ∧
    (⟨"06012", some "Yea"⟩ : JoinedRow).vote =
      (([⟨"06012", "Yea"⟩, ⟨"06012", "Nay"⟩, ⟨"06012", "Present"⟩] :
          List VoteRow).find?
        (fun v => v.geoid = (⟨"06012", some "Yea"⟩ : JoinedRow).key)).map
        (fun v => v.vote) :=
  ⟨by decide,
   C2_house_first_wins [⟨"06012", "Yea"⟩, ⟨"06012", "Nay"⟩, ⟨"06012", "Present"⟩]
     ["06012"] ⟨"06012", some "Yea"⟩ (by decide)⟩

/-- Claim C10: for any chamber string other than "senate" or "house",
`join_votes` raises `ValueError` ("Invalid chamber") and produces no joined
table. -/
theorem C10_invalid_chamber (chamber : String) (votes : List VoteRow)
    (shapes : List String) (h1 : chamber ≠ "senate") (h2 : chamber ≠ "house") :
    join_votes chamber votes shapes = Except.error "Invalid chamber" := by
  unfold join_votes
  rw [if_neg h1, if_neg h2]

/-- Witness for C10 at the chamber string "galactic-senate". -/
theorem C10_witness :
    join_votes "galactic-senate" [] [] = Except.error "Invalid chamber" :=
  C10_invalid_chamber "galactic-senate" [] [] (by decide) (by decide)

/-- Claim C7: a geometry row with no matching canonical vote record joins
to a row whose vote is the missing value (null, `Option.none`), on both
the Senate and House paths, and that missing value stays distinguishable
from the NotVoting enum value in the produced output: downstream,
`_votes_by_state` turns it into the string "nan", which differs from the
normalizer's "Not Voting". -/
theorem C7_missing_vote_null (votes : List VoteRow) (shapes : List String)
    (k : String) (hk : k ∈ shapes) (hmiss : matchesOf votes k = []) :
    (⟨k, none⟩ : JoinedRow) ∈ join_votes_state votes shapes ∧
    (⟨k, none⟩ : JoinedRow) ∈ join_votes_district votes shapes ∧
    normalizeCell none ≠ _normalize_vote (some "Not Voting") := by
  have hfind : votes.find? (fun v => v.geoid = k) = none := by
    rw [List.find?_eq_none]
    intro x hx
    simp only [decide_eq_true_eq]
    intro hgeo
    have hmem : x ∈ matchesOf votes k := by
      simp [matchesOf, List.mem_filter, hx, hgeo]
    rw [hmiss] at hmem
    exact absurd hmem (List.not_mem_nil x)
  refine ⟨?_, ?_, by decide⟩
  · unfold join_votes_state
    refine List.mem_flatMap.mpr ⟨k, hk, ?_⟩
    unfold leftMergeKey
    rw [hmiss]
    exact List.mem_singleton.mpr rfl
  · rw [join_votes_district_eq]
    refine List.mem_map.mpr ⟨k, hk, ?_⟩
    rw [hfind]
    rfl

/-- Witness for C7: the geometry row "VT" (no matching vote among the
records) joins to a null-vote row on both paths. -/
theorem C7_witness :
    ((⟨"VT", none⟩ : JoinedRow) ∈ join_votes_state [⟨"CA", "Yea"⟩] ["VT"]) ∧
    ((⟨"VT", none⟩ : JoinedRow) ∈ join_votes_district [⟨"CA", "Yea"⟩] ["VT"]) ∧
    normalizeCell none ≠ _normalize_vote (some "Not Voting") :=
  C7_missing_vote_null [⟨"CA", "Yea"⟩] ["VT"] "VT" (by decide) (by decide)

/-- Claim C3 (code-bug evaluation): `_votes_by_state` preserves record
order, truncates to two and pads a single present vote with "Not Voting"
as claimed, BUT a state whose joined row carries a missing vote (the
fewer-than-two case with zero votes) is exposed as ("nan", "Not Voting")
instead of ("Not Voting", "Not Voting"): `Series.map` feeds the missing
marker through `_normalize_vote`, which stringifies it to "nan" before the
`pd.notna` filter could drop it. -/
theorem C3_code_eval :
    _votes_by_state [⟨"CA", some "Yea"⟩, ⟨"CA", some "Nay"⟩] =
      [("CA", ["Yea", "Nay"])] ∧
    _votes_by_state [⟨"CA", some "Yea"⟩, ⟨"CA", some "Nay"⟩, ⟨"CA", some "Present"⟩] =
      [("CA", ["Yea", "Nay"])] ∧
    _votes_by_state [⟨"TX", some "Yea"⟩] = [("TX", ["Yea", "Not Voting"])] ∧
    _votes_by_state [⟨"VT", none⟩] = [("VT", ["nan", "Not Voting"])] ∧
    ("nan" : String) ≠ "Not Voting" := by decide

/-- Claim C4, counterexample: the normalizer does NOT send the empty
string or unrecognized strings to NotVoting — `VOTE_NORMALIZE.get(v, v)`
defaults to the input itself, so "" maps to "" and "Banana" to "Banana",
neither of which is one of the four enum values. -/
theorem C4_counterexample :
    _normalize_vote (some "") = "" ∧
    _normalize_vote (some "Banana") = "Banana" ∧
    ¬ ("" ∈ (["Yea", "Nay", "Present", "Not Voting"] : List String)) := by decide

/-- Claim C4, amended: the normalizer is total; null maps to "Not Voting";
every recognized synonym maps per the `VOTE_NORMALIZE` table; but an input
whose stripped form is NOT a table key (including the empty string) passes
through unchanged (stripped) instead of defaulting to NotVoting. -/
theorem C4_amended :
    _normalize_vote none = "Not Voting" ∧
    (∀ p ∈ VOTE_NORMALIZE, _normalize_vote (some p.1) = p.2) ∧
    (∀ s : String, VOTE_NORMALIZE.lookup (pyStrip s) = none →
      _normalize_vote (some s) = pyStrip s) := by
  refine ⟨rfl, by decide, ?_⟩
  intro s h
  simp [_normalize_vote, h]

/-- Witness for C4 at the synonym "Aye" and the unknown string "Banana". -/
theorem C4_witness :
    _normalize_vote (some "Aye") = "Yea" ∧
    _normalize_vote (some "Banana") = pyStrip "Banana" :=
  ⟨C4_amended.2.1 ("Aye", "Yea") (by decide), C4_amended.2.2 "Banana" (by decide)⟩

/-- Claim C6, counterexample: the Senate parser validates nothing against
a closed set of state codes — the unrecognized code "ZZ" is NOT dropped
during identity resolution and DOES appear in the canonical record set. -/
theorem C6_counterexample :
    _parse_senate_members [⟨some "ZZ", some "Yea"⟩] = [⟨"ZZ", "Yea"⟩] ∧
    ((⟨"ZZ", "Yea"⟩ : VoteRow) ∈
      _parse_senate_members [⟨some "ZZ", some "Yea"⟩]) := by decide

/-- Claim C6, amended: an unrecognized state code such as "ZZ" survives
identity resolution into the canonical record set (no 50-code validation
exists); it is only the left join that keeps it off the map — every row of
the joined table carries a geometry-side key, so a vote keyed "ZZ" can
never surface in the joined output when "ZZ" is not a geometry key, and
the join itself is total (no crash). -/
theorem C6_amended :
    ((⟨"ZZ", "Yea"⟩ : VoteRow) ∈
      _parse_senate_members [⟨some "ZZ", some "Yea"⟩]) ∧
    (∀ (votes : List VoteRow) (shapes : List String) (r : JoinedRow),
      r ∈ join_votes_state votes shapes → r.key ∈ shapes) :=
  ⟨by decide, fun _ _ _ h => key_of_mem_join_votes_state h⟩

/-- Witness for C6: joining votes containing the unknown key "ZZ" against
the geometry ["CA"], the (only) joined row's key is a geometry key. -/
theorem C6_witness :
    (⟨"CA", (none : Option String)⟩ : JoinedRow).key ∈ (["CA"] : List String) :=
  C6_amended.2 [⟨"ZZ", "Yea"⟩] ["CA"] ⟨"CA", none⟩ (by decide)

/-! ## Helper lemmas about the Senate parser and the House geoid builder -/

theorem parse_senate_cons (m : Member) (ms : List Member) :
    _parse_senate_members (m :: ms) =
      if pyStrip (m.state.getD "") ≠ "" then
        (⟨pyStrip (m.state.getD ""),
          if pyStrip (m.vote_cast.getD "") = "" then "Not Voting"
          else pyStrip (m.vote_cast.getD "")⟩ : VoteRow) :: _parse_senate_members ms
      else _parse_senate_members ms := rfl

theorem parse_senate_length (ms : List Member) :
    (_parse_senate_members ms).length =
      ms.countP (fun m => pyStrip (m.state.getD "") ≠ "") := by
  induction ms with
  | nil => rfl
  | cons m ms ih =>
    rw [parse_senate_cons, List.countP_cons]
    by_cases h : pyStrip (m.state.getD "") ≠ ""
    · rw [if_pos h, List.length_cons, ih]
      simp [h]
    · rw [if_neg h, ih]
      simp [h]

theorem parse_senate_mem_of {ms : List Member} {m : Member} (hm : m ∈ ms)
    (hstate : pyStrip (m.state.getD "") ≠ "") :
    (⟨pyStrip (m.state.getD ""),
      if pyStrip (m.vote_cast.getD "") = "" then "Not Voting"
      else pyStrip (m.vote_cast.getD "")⟩ : VoteRow) ∈ _parse_senate_members ms := by
  induction ms with
  | nil => cases hm
  | cons m0 ms ih =>
    rw [parse_senate_cons]
    rcases List.mem_cons.mp hm with rfl | hm'
    · rw [if_pos hstate]
      exact List.mem_cons_self _ _
    · by_cases h0 : pyStrip (m0.state.getD "") ≠ ""
      · rw [if_pos h0]
        exact List.mem_cons_of_mem _ (ih hm')
      · rw [if_neg h0]
        exact ih hm'

theorem parse_senate_sound (ms : List Member) :
    ∀ r ∈ _parse_senate_members ms, ∃ m ∈ ms,
      r.geoid = pyStrip (m.state.getD "") ∧ pyStrip (m.state.getD "") ≠ "" := by
  induction ms with
  | nil =>
    intro r hr
    exact absurd hr (List.not_mem_nil r)
  | cons m0 ms ih =>
    intro r hr
    rw [parse_senate_cons] at hr
    by_cases h0 : pyStrip (m0.state.getD "") ≠ ""
    · rw [if_pos h0] at hr
      rcases List.mem_cons.mp hr with rfl | hr'
      · exact ⟨m0, List.mem_cons_self _ _, rfl, h0⟩
      · obtain ⟨m, hmem, hh⟩ := ih r hr'
        exact ⟨m, List.mem_cons_of_mem _ hmem, hh⟩
    · rw [if_neg h0] at hr
      obtain ⟨m, hmem, hh⟩ := ih r hr
      exact ⟨m, List.mem_cons_of_mem _ hmem, hh⟩

theorem build_geoid_row_isSome (roster : String → Option String) (r : HouseRawRow) :
    (_build_geoid_row roster r).isSome = resolves roster r := by
  simp only [_build_geoid_row, resolves]
  by_cases h1 : (roster r.bioguide).getD "" = ""
  · rw [if_pos h1, if_pos h1]
    rfl
  · rw [if_neg h1, if_neg h1]
    by_cases h2 : (STATEFP.lookup (pyTake ((roster r.bioguide).getD "") 2)).getD "" ≠ "" ∧
        (if pyDrop ((roster r.bioguide).getD "") 2 ≠ ""
          then zfill2 (pyDrop ((roster r.bioguide).getD "") 2) else "") ≠ ""
    · rw [if_pos h2, Option.isSome_some, decide_eq_true h2]
    · rw [if_neg h2, Option.isSome_none, decide_eq_false h2]

theorem mem_build_geoid_df {votes : List HouseRawRow} {roster : String → Option String}
    {rec : VoteRow} (h : rec ∈ _build_geoid_df votes roster) :
    ∃ r ∈ votes, ∃ sd, roster r.bioguide = some sd ∧
      (STATEFP.lookup (pyTake sd 2)).isSome ∧
      rec.vote = r.vote ∧
      rec.geoid = (STATEFP.lookup (pyTake sd 2)).getD "" ++ zfill2 (pyDrop sd 2) := by
  unfold _build_geoid_df at h
  obtain ⟨r, hr, hrow⟩ := List.mem_filterMap.mp h
  refine ⟨r, hr, ?_⟩
  simp only [_build_geoid_row] at hrow
  by_cases h1 : (roster r.bioguide).getD "" = ""
  · rw [if_pos h1] at hrow
    cases hrow
  · rw [if_neg h1] at hrow
    refine ⟨(roster r.bioguide).getD "", ?_, ?_⟩
    · cases hrb : roster r.bioguide with
      | none =>
        rw [hrb] at h1
        exact absurd rfl h1
      | some y => rfl
    · by_cases h2 : (STATEFP.lookup (pyTake ((roster r.bioguide).getD "") 2)).getD "" ≠ "" ∧
          (if pyDrop ((roster r.bioguide).getD "") 2 ≠ ""
            then zfill2 (pyDrop ((roster r.bioguide).getD "") 2) else "") ≠ ""
      · rw [if_pos h2] at hrow
        obtain ⟨h2a, h2b⟩ := h2
        have hsome : (STATEFP.lookup (pyTake ((roster r.bioguide).getD "") 2)).isSome := by
          cases hlk : STATEFP.lookup (pyTake ((roster r.bioguide).getD "") 2) with
          | none => exact absurd (by rw [hlk]; rfl) h2a
          | some y => rfl
        have hdist : (if pyDrop ((roster r.bioguide).getD "") 2 ≠ ""
            then zfill2 (pyDrop ((roster r.bioguide).getD "") 2) else "") =
            zfill2 (pyDrop ((roster r.bioguide).getD "") 2) := by
          by_cases h3 : pyDrop ((roster r.bioguide).getD "") 2 ≠ ""
          · rw [if_pos h3]
          · exact absurd (if_neg h3) h2b
        rw [hdist] at hrow
        cases hrow
        exact ⟨hsome, rfl, rfl⟩
      · rw [if_neg h2] at hrow
        cases hrow

theorem length_build_geoid_df (votes : List HouseRawRow)
    (roster : String → Option String) :
    (_build_geoid_df votes roster).length = votes.countP (resolves roster) := by
  unfold _build_geoid_df
  rw [List.length_filterMap_eq_countP]
  simp only [build_geoid_row_isSome]

/-- Claim C8: the Senate parser emits exactly one raw record per member
entry with a non-empty (stripped) state — entries without a state are
skipped without aborting; a member with an absent or empty `vote_cast`
yields the vote "Not Voting"; and every output record comes from an entry
with a non-empty state. -/
theorem C8_senate_parse_rows (ms : List Member) (m : Member) (hm : m ∈ ms)
    (hstate : pyStrip (m.state.getD "") ≠ "")
    (hvote : pyStrip (m.vote_cast.getD "") = "") :
    (_parse_senate_members ms).length =
      ms.countP (fun x => pyStrip (x.state.getD "") ≠ "") ∧
    (⟨pyStrip (m.state.getD ""), "Not Voting"⟩ : VoteRow) ∈ _parse_senate_members ms ∧
    (∀ r ∈ _parse_senate_members ms, ∃ x ∈ ms,
      r.geoid = pyStrip (x.state.getD "") ∧ pyStrip (x.state.getD "") ≠ "") := by
  refine ⟨parse_senate_length ms, ?_, parse_senate_sound ms⟩
  have h := parse_senate_mem_of hm hstate
  rw [if_pos hvote] at h
  exact h

/-- Witness for C8: a document with a member "CA" whose `vote_cast` is
absent and a member without a state parses to one "Not Voting" record. -/
theorem C8_witness :
    (_parse_senate_members [⟨some "CA", none⟩, ⟨none, some "Yea"⟩]).length =
      ([⟨some "CA", none⟩, ⟨none, some "Yea"⟩] : List Member).countP
        (fun x => pyStrip (x.state.getD "") ≠ "") ∧
    (⟨pyStrip ((⟨some "CA", none⟩ : Member).state.getD ""), "Not Voting"⟩ : VoteRow) ∈
      _parse_senate_members [⟨some "CA", none⟩, ⟨none, some "Yea"⟩] ∧
    (∀ r ∈ _parse_senate_members [⟨some "CA", none⟩, ⟨none, some "Yea"⟩],
      ∃ x ∈ ([⟨some "CA", none⟩, ⟨none, some "Yea"⟩] : List Member),
        r.geoid = pyStrip (x.state.getD "") ∧ pyStrip (x.state.getD "") ≠ "") :=
  C8_senate_parse_rows [⟨some "CA", none⟩, ⟨none, some "Yea"⟩] ⟨some "CA", none⟩
    (by decide) (by decide) (by decide)

/-- Claim C9: every record of the canonical House output comes from a raw
record whose member id has a roster entry and whose roster state has a
FIPS entry (so an unmapped record is never mapped to a wrong state, it is
excluded); the output length counts exactly the resolvable records; and
the unmapped figure the pipeline prints equals the number of records whose
identity could not be resolved. -/
theorem C9_house_unmapped (votes : List HouseRawRow)
    (roster : String → Option String) :
    (∀ rec ∈ _build_geoid_df votes roster, ∃ r ∈ votes, ∃ sd,
        roster r.bioguide = some sd ∧ (STATEFP.lookup (pyTake sd 2)).isSome ∧
        rec.vote = r.vote ∧
        rec.geoid = (STATEFP.lookup (pyTake sd 2)).getD "" ++ zfill2 (pyDrop sd 2)) ∧
    (_build_geoid_df votes roster).length = votes.countP (resolves roster) ∧
    unmappedCount votes roster =
      votes.countP (fun r => ¬ resolves roster r) := by
  refine ⟨fun rec h => mem_build_geoid_df h, length_build_geoid_df votes roster, ?_⟩
  unfold unmappedCount
  rw [length_build_geoid_df]
  have h := List.length_eq_countP_add_countP (p := resolves roster) (l := votes)
  omega

/-- Witness for C9: of two raw records, only the one with a roster entry
("A1" ↦ "CA12") survives, and the printed unmapped count matches the
count of unresolvable records. -/
theorem C9_witness :
    (∃ r ∈ ([⟨"A1", "CA", "Yea"⟩, ⟨"B2", "ZZ", "Nay"⟩] : List HouseRawRow), ∃ sd,
      (fun b => if b = "A1" then some "CA12" else none) r.bioguide = some sd ∧
      (STATEFP.lookup (pyTake sd 2)).isSome ∧
      (⟨"0612", "Yea"⟩ : VoteRow).vote = r.vote ∧
      (⟨"0612", "Yea"⟩ : VoteRow).geoid =
        (STATEFP.lookup (pyTake sd 2)).getD "" ++ zfill2 (pyDrop sd 2)) ∧
    unmappedCount [⟨"A1", "CA", "Yea"⟩, ⟨"B2", "ZZ", "Nay"⟩]
        (fun b => if b = "A1" then some "CA12" else none) =
      ([⟨"A1", "CA", "Yea"⟩, ⟨"B2", "ZZ", "Nay"⟩] : List HouseRawRow).countP
        (fun r => ¬ resolves (fun b => if b = "A1" then some "CA12" else none) r) :=
  ⟨(C9_house_unmapped [⟨"A1", "CA", "Yea"⟩, ⟨"B2", "ZZ", "Nay"⟩]
      (fun b => if b = "A1" then some "CA12" else none)).1
    ⟨"0612", "Yea"⟩ (by decide),
   (C9_house_unmapped [⟨"A1", "CA", "Yea"⟩, ⟨"B2", "ZZ", "Nay"⟩]
      (fun b => if b = "A1" then some "CA12" else none)).2.2⟩

/-- Claim C5, counterexample: the pipeline's `_build_geoid_df` zero-pads
the roster district to TWO digits, not three — the CA-12 roster token
"CA12" yields geo_key "0612", not the claimed "06012". -/
theorem C5_counterexample :
    _build_geoid_df [⟨"A000001", "CA", "Yea"⟩]
        (fun b => if b = "A000001" then some "CA12" else none) =
      [⟨"0612", "Yea"⟩] ∧ ("0612" : String) ≠ "06012" := by decide

/-- Claim C5, amended: `compute_geoid` in house_map.py implements the
claimed scheme — 2-digit FIPS ++ district zero-padded to 3 digits (CA
district 12 gives "06012"), with every at-large token (case-insensitive
"al"/"at-large"/"at large"/"0"/"00") normalizing the suffix to "000" — but
the live pipeline's `_build_geoid_df` (src/house.py) instead concatenates
the FIPS code with the roster district zero-padded to only 2 digits
(CA-12 gives "0612", at-large gives suffix "00"). -/
theorem C5_geoid_scheme :
    compute_geoid "CA" (some "12") = some "06012" ∧
    (∀ s : String,
      (pyLower (pyStrip s) = "al" ∨ pyLower (pyStrip s) = "at-large" ∨
       pyLower (pyStrip s) = "at large" ∨ pyLower (pyStrip s) = "0" ∨
       pyLower (pyStrip s) = "00") →
      normalize_district_to_3digits (some s) = "000") ∧
    (∀ (st : String) (d : Option String) (fips : String),
      state_abbr_to_fips st = some fips →
      compute_geoid st d = some (fips ++ normalize_district_to_3digits d)) ∧
    (∀ (votes : List HouseRawRow) (roster : String → Option String),
      ∀ rec ∈ _build_geoid_df votes roster, ∃ sd r, r ∈ votes ∧
        roster r.bioguide = some sd ∧
        rec.geoid = (STATEFP.lookup (pyTake sd 2)).getD "" ++ zfill2 (pyDrop sd 2)) := by
  refine ⟨by decide, ?_, ?_, ?_⟩
  · intro s h
    simp only [normalize_district_to_3digits]
    rw [if_pos h]
  · intro st d fips h
    unfold compute_geoid
    rw [h]
  · intro votes roster rec h
    obtain ⟨r, hr, sd, hsd, _, _, hgeo⟩ := mem_build_geoid_df h
    exact ⟨sd, r, hr, hsd, hgeo⟩

/-- Witness for C5 at the at-large token "At-Large", the lower-case state
"wy", and the concrete pipeline record resolved through roster token
"CA12". -/
theorem C5_witness :
    normalize_district_to_3digits (some "At-Large") = "000" ∧
    compute_geoid "wy" (some "3") =
      some ("56" ++ normalize_district_to_3digits (some "3")) ∧
    (∃ sd r, r ∈ ([⟨"A1", "CA", "Yea"⟩] : List HouseRawRow) ∧
      (fun b => if b = "A1" then some "CA12" else none) r.bioguide = some sd ∧
      (⟨"0612", "Yea"⟩ : VoteRow).geoid =
        (STATEFP.lookup (pyTake sd 2)).getD "" ++ zfill2 (pyDrop sd 2)) :=
  ⟨C5_geoid_scheme.2.1 "At-Large" (by decide),
   C5_geoid_scheme.2.2.1 "wy" (some "3") "56" (by decide),
   C5_geoid_scheme.2.2.2 [⟨"A1", "CA", "Yea"⟩]
     (fun b => if b = "A1" then some "CA12" else none) ⟨"0612", "Yea"⟩ (by decide)⟩

end VoteVisualizer
